import Mathlib

/-!
Verification of the DoQ (DNS-over-QUIC) transport and the IP resolution
engine of the hickory-dns repository, as a shallow embedding in Lean.

Part 1: the DoQ stream codec (`crates/proto/src/quic/quic_stream.rs`).
Part 2: the DoQ client transport (`crates/proto/src/quic/quic_client_stream.rs`).
Part 3: the IP resolution engine (`crates/resolver/src/lookup_ip.rs`).

Machine integers are modelled as `Nat` with explicit bounds where the
source relies on the width (`u16::try_from`, `u32::try_from`, QUIC
varints of 62 bits).
-/

set_option autoImplicit false

namespace HickoryDns

/-! ### DoQ error codes (`quic_stream.rs` lines 58-118) -/

/-- The `DoqErrorCode` enum from `quic_stream.rs`: six named variants and
an open `Unknown(u32)` catch-all.  (The source defines no variant for the
RFC 9250 code `DOQ_UNSPECIFIED_ERROR (0x5)`.) -/
inductive DoqErrorCode where
  | NoError
  | InternalError
  | ProtocolError
  | RequestCancelled
  | ExcessiveLoad
  | ErrorReserved
  | Unknown (code : Nat)
deriving DecidableEq, Repr

/-- Source constant `NO_ERROR: u32 = 0x0`. -/
def NO_ERROR : Nat := 0x0

/-- Source constant `INTERNAL_ERROR: u32 = 0x1`. -/
def INTERNAL_ERROR : Nat := 0x1

/-- Source constant `PROTOCOL_ERROR: u32 = 0x2`. -/
def PROTOCOL_ERROR : Nat := 0x2

/-- Source constant `REQUEST_CANCELLED: u32 = 0x3`. -/
def REQUEST_CANCELLED : Nat := 0x3

/-- Source constant `EXCESSIVE_LOAD: u32 = 0x4`. -/
def EXCESSIVE_LOAD : Nat := 0x4

/-- Source constant `ERROR_RESERVED: u32 = 0xd098ea5e`. -/
def ERROR_RESERVED : Nat := 0xd098ea5e

/-- Largest value of a Rust `u32`. -/
def u32MAX : Nat := 4294967295

/-- Embedding of `impl From<DoqErrorCode> for VarInt` (`quic_stream.rs` lines 84-98).
A QUIC varint is modelled as its numeric value. -/
def DoqErrorCode.toVarInt : DoqErrorCode → Nat
  | .NoError => NO_ERROR
  | .InternalError => INTERNAL_ERROR
  | .ProtocolError => PROTOCOL_ERROR
  | .RequestCancelled => REQUEST_CANCELLED
  | .ExcessiveLoad => EXCESSIVE_LOAD
  | .ErrorReserved => ERROR_RESERVED
  | .Unknown code => code

/-- Embedding of `impl From<VarInt> for DoqErrorCode` (`quic_stream.rs` lines 100-118):
`u32::try_from` on the 62-bit varint value fails exactly when the value
exceeds `u32::MAX`, in which case the decoder returns `ProtocolError`;
otherwise the value is matched against the six named constants, all other
codes landing in `Unknown`. -/
def DoqErrorCode.fromVarInt (v : Nat) : DoqErrorCode :=
  if v ≤ u32MAX then
    if v = NO_ERROR then .NoError
    else if v = INTERNAL_ERROR then .InternalError
    else if v = PROTOCOL_ERROR then .ProtocolError
    else if v = REQUEST_CANCELLED then .RequestCancelled
    else if v = EXCESSIVE_LOAD then .ExcessiveLoad
    else if v = ERROR_RESERVED then .ErrorReserved
    else .Unknown v
  else
    .ProtocolError

/-! ### Protocol errors (`ProtoErrorKind`, modelled with only the
constructors the embedded code produces, plus `message` for abstract
collaborator failures). -/

inductive ProtoError where
  | maxBufferSizeExceeded (len : Nat)
  | quicMessageIdNot0 (id : Nat)
  | quinnUnknownStreamError
  | readError
  | message (msg : String)
deriving DecidableEq, Repr

/-! ### The DoQ stream codec (`quic_stream.rs` lines 121-228)

The DNS message codec (`Message::to_vec`, `Message::from_vec`,
`DnsResponse::from_buffer`) is an external collaborator; it enters the
embedding as explicit function parameters.  A `Message` is modelled as
its 16-bit header ID plus an opaque payload, which is all the codec
inspects of it. -/

structure Message (α : Type) where
  id : Nat
  body : α
deriving DecidableEq, Repr

/-- Model of `Message::set_id`. -/
def Message.setId {α : Type} (m : Message α) (id : Nat) : Message α :=
  { m with id := id }

/-- Model of `u16::to_be_bytes` of a length that fits in 16 bits: high octet then
low octet. -/
def u16be (n : Nat) : List Nat :=
  [n / 256 % 256, n % 256]

/-- Model of `u16::from_be_bytes` on two octets. -/
def u16fromBe (hi lo : Nat) : Nat :=
  hi * 256 + lo

/-- Embedding of `QuicStream::send_bytes` (`quic_stream.rs` lines 148-164).  The send
half is modelled as the list of octets written so far; `write_all_chunks`
appends the 2-octet big-endian length prefix and the body in one step.
`u16::try_from(bytes.len())` fails exactly when the body exceeds 65535
octets, producing `MaxBufferSizeExceeded` before anything is written. -/
def QuicStream.sendBytes (st : List Nat) (bytes : List Nat) :
    Except ProtoError Unit × List Nat :=
  if bytes.length ≤ 65535 then
    (.ok (), st ++ u16be bytes.length ++ bytes)
  else
    (.error (.maxBufferSizeExceeded bytes.length), st)

/-- Embedding of `QuicStream::send` (`quic_stream.rs` lines 135-145): force the
message ID to 0, serialize (`Message::to_vec`, abstract and fallible),
then `send_bytes`. -/
def QuicStream.send {α : Type} (toVec : Message α → Except ProtoError (List Nat))
    (st : List Nat) (message : Message α) : Except ProtoError Unit × List Nat :=
  match toVec (message.setId 0) with
  | .error e => (.error e, st)
  | .ok bytes => QuicStream.sendBytes st bytes

/-- Model of `read_exact` on the receive half, modelled as the list of octets not
yet consumed: succeeds with the first `n` octets and the remainder when
enough octets are available, otherwise fails. -/
def readExact (input : List Nat) (n : Nat) :
    Except ProtoError (List Nat × List Nat) :=
  if n ≤ input.length then .ok (input.take n, input.drop n)
  else .error .readError

/-- Embedding of `QuicStream::receive_bytes` (`quic_stream.rs` lines 190-214).  The
second component records the code of a `reset` performed on the send
half (`none` when no reset happened): a failing body read resets with
`ProtocolError` before propagating the read error; a failing length read
does not reset. -/
def QuicStream.receiveBytes (input : List Nat) :
    Except ProtoError (List Nat) × Option DoqErrorCode :=
  match readExact input 2 with
  | .error e => (.error e, none)
  | .ok (lenBytes, rest) =>
    let len := u16fromBe (lenBytes.headI) (lenBytes.tail.headI)
    match readExact rest len with
    | .error e => (.error e, some .ProtocolError)
    | .ok (bytes, _) => (.ok bytes, none)

/-- Embedding of `QuicStream::receive` (`quic_stream.rs` lines 173-186): read a frame,
parse it (`Message::from_vec`, abstract), reject a non-zero message ID by
resetting the send half with `ProtocolError` and returning
`QuicMessageIdNot0(id)`, otherwise hand the octets to
`DnsResponse::from_buffer` (abstract). -/
def QuicStream.receive {α β : Type}
    (fromVec : List Nat → Except ProtoError (Message α))
    (fromBuffer : List Nat → Except ProtoError β)
    (input : List Nat) : Except ProtoError β × Option DoqErrorCode :=
  match QuicStream.receiveBytes input with
  | (.error e, rc) => (.error e, rc)
  | (.ok bytes, _) =>
    match fromVec bytes with
    | .error e => (.error e, none)
    | .ok message =>
      if message.id ≠ 0 then
        (.error (.quicMessageIdNot0 message.id), some .ProtocolError)
      else
        (fromBuffer bytes, none)

/-- The length a frame header announces: the first two octets read as a
big-endian `u16` (the local `len` of `receive_bytes`). -/
def frameLen (input : List Nat) : Nat :=
  u16fromBe ((input.take 2).headI) ((input.take 2).tail.headI)

/-! ### The DoQ client transport (`quic_client_stream.rs` lines 39-194)

A `QuicClientStream` holds a shared QUIC connection, the server name and
address, and the `is_shutdown` flag.  Only the state the verified claims
observe is modelled: the flag, and the close record of the underlying
connection (`Connection::close(code, reason)` records the varint error
code and the reason octets the first time it is called; closing an
already-closed connection is a no-op). -/

structure QuicClientStream where
  isShutdown : Bool
  closeState : Option (Nat × List Nat)
deriving DecidableEq, Repr

/-- The octets of the close payload `b"Shutdown"`. -/
def shutdownPayload : List Nat :=
  [0x53, 0x68, 0x75, 0x74, 0x64, 0x6f, 0x77, 0x6e]

/-- Embedding of `DnsRequestSender::shutdown` (`quic_client_stream.rs` lines 173-177):
set the flag, close the connection with `DoqErrorCode::NoError` and the
payload `b"Shutdown"`. -/
def QuicClientStream.shutdown (s : QuicClientStream) : QuicClientStream :=
  { isShutdown := true
    closeState :=
      match s.closeState with
      | some c => some c
      | none => some (DoqErrorCode.NoError.toVarInt, shutdownPayload) }

/-- Embedding of `DnsRequestSender::send_message` (`quic_client_stream.rs` lines
165-171): panics when the stream is shut down (modelled as `none`);
otherwise clones the connection for the request and leaves the handle's
state unchanged (modelled as `some` of the unchanged state). -/
def QuicClientStream.sendMessage (s : QuicClientStream) :
    Option QuicClientStream :=
  if s.isShutdown then none else some s

/-- Embedding of `DnsRequestSender::is_shutdown` (`quic_client_stream.rs` lines
179-181). -/
def QuicClientStream.isShutdownFn (s : QuicClientStream) : Bool :=
  s.isShutdown

/-- The operations a caller can apply to a `QuicClientStream` handle.
`Stream::poll_next` reads the flag without writing any state and is
therefore subsumed by `isShutdownFn`. -/
inductive ClientOp where
  | opShutdown
  | opSendMessage
deriving DecidableEq, Repr

/-- State transition of one caller operation.  A `send_message` call on a
shut-down handle panics and so observes no successor state; the handle's
state is unchanged by the call in every case (`send_message` only reads
`self`'s fields). -/
def QuicClientStream.applyOp (s : QuicClientStream) : ClientOp → QuicClientStream
  | .opShutdown => s.shutdown
  | .opSendMessage => (s.sendMessage).getD s

/-! ### The IP resolution engine (`lookup_ip.rs`)

External collaborator types (`Name`, `Query`, `Record`, `RData`,
`Lookup` from the proto/lookup modules) are modelled with exactly the
structure the engine inspects. -/

/-- A DNS name, modelled as its list of labels; `Name::new()` is the
empty name. -/
abbrev Name := List String

/-- Model of `Name::new()`. -/
def Name.new : Name := []

/-- Record types the engine queries for. -/
inductive RecordType where
  | A
  | AAAA
  | other (tag : Nat)
deriving DecidableEq, Repr

/-- Record data; the engine and `LookupIp` only distinguish `A`, `AAAA`
and everything else.  Addresses are modelled as their numeric value. -/
inductive RData where
  | A (ip : Nat)
  | AAAA (ip : Nat)
  | other (tag : Nat)
deriving DecidableEq, Repr

/-- An IP address as produced by the `LookupIp` iterators. -/
inductive IpAddr where
  | v4 (ip : Nat)
  | v6 (ip : Nat)
deriving DecidableEq, Repr

/-- A `Query` as the engine builds it: `Query::query(name, record_type)`
(the class is always `IN` and is omitted). -/
structure Query where
  name : Name
  queryType : RecordType
deriving DecidableEq, Repr

/-- Model of `Query::new()`: default name and an `A` query type. -/
def Query.new : Query := { name := Name.new, queryType := .A }

/-- A resource record as the engine builds it with
`Record::from_rdata(name, ttl, rdata)`. -/
structure Record where
  name : Name
  ttl : Nat
  rdata : RData
deriving DecidableEq, Repr

/-- Modelled from the spec: `MAX_TTL` from the cache module
(`crates/resolver/src/dns_lru.rs`), which is not among the sources; the
engine only stamps the fallback record with it, so its numeric value is
immaterial to the claims. -/
def MAX_TTL : Nat := 2147483647

/-- A `Lookup`: the query that produced it plus the ordered records.
Modelled from the spec: `Lookup` lives in `crates/resolver/src/lookup.rs`,
not among the sources; per the spec it is "an ordered sequence of RData
records plus the Query that produced it" with an `is_empty()` predicate
(the `valid_until` instant is not observed by any claim and is omitted). -/
structure Lookup where
  query : Query
  records : List Record
deriving DecidableEq, Repr

/-- Model of `Lookup::is_empty` — modelled from the spec: no records. -/
def Lookup.isEmpty (l : Lookup) : Bool :=
  l.records.isEmpty

/-- Model of `Lookup::append` — modelled from the spec: "Merge non-empty successes
by appending (A records then AAAA records in the order produced)": the
receiver's records followed by the argument's records, keeping the
receiver's query. -/
def Lookup.append (l1 l2 : Lookup) : Lookup :=
  { query := l1.query, records := l1.records ++ l2.records }

/-- Model of `Lookup::new_with_max_ttl(query, records)` as used for the fallback
lookup. -/
def Lookup.newWithMaxTtl (q : Query) (records : List Record) : Lookup :=
  { query := q, records := records }

/-- The IP view of a lookup: the `LookupIpIter` iterator yields the `A`
and `AAAA` rdatas of the records in original order, skipping every other
record type (`lookup_ip.rs` lines 80-91). -/
def Lookup.ips (l : Lookup) : List IpAddr :=
  l.records.filterMap fun r =>
    match r.rdata with
    | .A ip => some (.v4 ip)
    | .AAAA ip => some (.v6 ip)
    | .other _ => none

/-- Resolver errors; the engine constructs
`ResolveErrorKind::Message` over a static string and forwards collaborator
errors. -/
inductive ResolveError where
  | message (msg : String)
  | proto (tag : Nat)
deriving DecidableEq, Repr

/-- The error the initial query of `LookupIpFuture::lookup` is resolved
to (`lookup_ip.rs` lines 213-214). -/
def noNamesError : ResolveError :=
  .message ("can not lookup IPs for no names")

/-- The synthetic fallback lookup built in `poll` (`lookup_ip.rs` lines
176-177): a single record with the empty `Name`, `MAX_TTL` and the
fallback rdata, under `Query::new()`. -/
def fallbackLookup (ipAddr : RData) : Lookup :=
  Lookup.newWithMaxTtl Query.new
    [{ name := Name.new, ttl := MAX_TTL, rdata := ipAddr }]

/-- The retry decision of `poll` (`lookup_ip.rs` lines 147-156): a
completed query is retried when it is an error or an empty lookup. -/
def shouldRetry (q : Except ResolveError Lookup) : Bool :=
  match q with
  | .ok lookup => lookup.isEmpty
  | .error _ => true

/-- The main loop of `impl Future for LookupIpFuture::poll` (`lookup_ip.rs`
lines 141-191), driven to completion.  The strategic lookup for one
candidate name is abstracted as `f : Name → Except ResolveError Lookup`
(each completed query's outcome).  `names.pop()` removes the LAST element
of the `names` vector, so the loop is expressed structurally over the
REVERSED names list: the head of `revNames` is the next candidate.  The
second component counts the strategic lookups started. -/
def pollLoopRev (f : Name → Except ResolveError Lookup) (fb : Option RData) :
    List Name → Except ResolveError Lookup → Except ResolveError Lookup × Nat
  | revNames, q =>
    if shouldRetry q then
      match revNames with
      | n :: rest =>
        let r := pollLoopRev f fb rest (f n)
        (r.1, r.2 + 1)
      | [] =>
        match fb with
        | some ipAddr => (.ok (fallbackLookup ipAddr), 0)
        | none => (q, 0)
    else (q, 0)

/-- The loop of `poll` started on a pending query result `q`, with the
candidate names still in source order (`names.pop()` takes the last). -/
def pollFrom (f : Name → Except ResolveError Lookup) (names : List Name)
    (fb : Option RData) (q : Except ResolveError Lookup) :
    Except ResolveError Lookup × Nat :=
  pollLoopRev f fb names.reverse q

/-- Embedding of `LookupIpFuture::lookup` (`lookup_ip.rs` lines 205-226) driven to
completion: the initial query is already resolved to `noNamesError`, so
the first poll enters the retry logic immediately. -/
def lookupIpRun (f : Name → Except ResolveError Lookup) (names : List Name)
    (fb : Option RData) : Except ResolveError Lookup × Nat :=
  pollFrom f names fb (.error noNamesError)

/-- Embedding of `ipv4_and_ipv6` (`lookup_ip.rs` lines 296-345) for one candidate
name.  The two sub-lookup outcomes are `resA` and `resAAAA`; the
`future::select` race resolves nondeterministically, recorded by
`leftWins` (`true` = the A side completed first, `Either::Left`).  The
winner is `ips`, the awaited loser `next_ips`; two successes are merged
as `ips.append(next_ips)`, a single success is returned as is, and two
errors return the winner's error `e1`. -/
def ipv4AndIpv6 (resA resAAAA : Except ResolveError Lookup)
    (leftWins : Bool) : Except ResolveError Lookup :=
  let ips := if leftWins then resA else resAAAA
  let nextIps := if leftWins then resAAAA else resA
  match ips, nextIps with
  | .ok ips, .ok nextIps => .ok (ips.append nextIps)
  | .ok ips, .error _ => .ok ips
  | .error _, .ok ips => .ok ips
  | .error e1, .error _ => .error e1

/-- A concrete non-empty A-side lookup used to exhibit the merge order. -/
def sampleLookupA : Lookup :=
  { query := { name := [], queryType := .A },
    records := [{ name := [], ttl := 1, rdata := .A 1 }] }

/-- A concrete non-empty AAAA-side lookup used to exhibit the merge
order. -/
def sampleLookupAAAA : Lookup :=
  { query := { name := [], queryType := .AAAA },
    records := [{ name := [], ttl := 1, rdata := .AAAA 2 }] }

/-! ## Theorems -/

/-- C1 (counterexample): the claim says the wire value `0x5` decodes to a
named non-`Unknown` variant (`UNSPECIFIED_ERROR`).  It does not: the
source defines no constant for `0x5` and no such variant, so `0x5` falls
through the match into the `Unknown` catch-all. -/
theorem doq_decode_5_is_unknown :
    DoqErrorCode.fromVarInt 0x5 = DoqErrorCode.Unknown 0x5 := by
  decide

/-- C1 (amended): decoding a QUIC varint into `DoqErrorCode` maps the SIX
wire values `0x0`, `0x1`, `0x2`, `0x3`, `0x4`, `0xd098ea5e` to distinct
named (non-`Unknown`) variants; `0x5` — like every other value that fits
in 32 bits and is none of those six — decodes to `Unknown(c)`; and every
varint value greater than `u32::MAX` decodes to `ProtocolError`. -/
theorem doq_decode_amended :
    DoqErrorCode.fromVarInt 0x0 = .NoError ∧
    DoqErrorCode.fromVarInt 0x1 = .InternalError ∧
    DoqErrorCode.fromVarInt 0x2 = .ProtocolError ∧
    DoqErrorCode.fromVarInt 0x3 = .RequestCancelled ∧
    DoqErrorCode.fromVarInt 0x4 = .ExcessiveLoad ∧
    DoqErrorCode.fromVarInt 0xd098ea5e = .ErrorReserved ∧
    [DoqErrorCode.fromVarInt 0x0, DoqErrorCode.fromVarInt 0x1,
      DoqErrorCode.fromVarInt 0x2, DoqErrorCode.fromVarInt 0x3,
      DoqErrorCode.fromVarInt 0x4, DoqErrorCode.fromVarInt 0xd098ea5e].Nodup ∧
    (∀ c : Nat, c ≤ u32MAX → c ≠ 0x0 → c ≠ 0x1 → c ≠ 0x2 → c ≠ 0x3 →
      c ≠ 0x4 → c ≠ 0xd098ea5e → DoqErrorCode.fromVarInt c = .Unknown c) ∧
    (∀ v : Nat, u32MAX < v → DoqErrorCode.fromVarInt v = .ProtocolError) := by
  refine ⟨by decide, by decide, by decide, by decide, by decide, by decide,
    by decide, ?_, ?_⟩
  · intro c hle h0 h1 h2 h3 h4 hr
    simp [DoqErrorCode.fromVarInt, NO_ERROR, INTERNAL_ERROR, PROTOCOL_ERROR,
      REQUEST_CANCELLED, EXCESSIVE_LOAD, ERROR_RESERVED, hle, h0, h1, h2, h3,
      h4, hr]
  · intro v hv
    have hnle : ¬ v ≤ u32MAX := by omega
    simp [DoqErrorCode.fromVarInt, hnle]

/-- C1 (witness for the amended theorem): `7` decodes to `Unknown 7` and
`2^32` decodes to `ProtocolError`. -/
theorem doq_decode_amended_witness :
    DoqErrorCode.fromVarInt 7 = .Unknown 7 ∧
    DoqErrorCode.fromVarInt 4294967296 = .ProtocolError :=
  ⟨doq_decode_amended.2.2.2.2.2.2.2.1 7 (by decide) (by decide) (by decide)
      (by decide) (by decide) (by decide) (by decide),
    doq_decode_amended.2.2.2.2.2.2.2.2 4294967296 (by decide)⟩

/-- C2: for every 32-bit value `c`, decoding the varint `c` into a
`DoqErrorCode` and encoding the result back into a varint yields `c`
again — the round-trip identity over the whole `u32` space (the six
named codes map to their variants, everything else through `Unknown c`). -/
theorem doq_code_roundtrip (c : Nat) (h : c ≤ u32MAX) :
    (DoqErrorCode.fromVarInt c).toVarInt = c := by
  unfold DoqErrorCode.fromVarInt
  rw [if_pos h]
  split_ifs with h0 h1 h2 h3 h4 h5 <;>
    simp_all [DoqErrorCode.toVarInt]

/-- C2 (witness): round-trip at the reserved test code. -/
theorem doq_code_roundtrip_witness :
    (DoqErrorCode.fromVarInt 0xd098ea5e).toVarInt = 0xd098ea5e :=
  doq_code_roundtrip 0xd098ea5e (by decide)

/-- C3: `QuicStream::send` first sets the message ID to 0 (the serializer
sees `message.setId 0`), then writes the 2-octet big-endian length prefix
followed by the serialized body onto the send half; it fails with
`MaxBufferSizeExceeded n` exactly when the body length `n` exceeds 65535
octets, and then nothing is written (the send half is unchanged). -/
theorem quic_send_spec {α : Type}
    (toVec : Message α → Except ProtoError (List Nat))
    (st : List Nat) (m : Message α) (bytes : List Nat)
    (h : toVec (m.setId 0) = .ok bytes) :
    (bytes.length ≤ 65535 →
      QuicStream.send toVec st m = (.ok (), st ++ u16be bytes.length ++ bytes)) ∧
    (65535 < bytes.length →
      QuicStream.send toVec st m =
        (.error (.maxBufferSizeExceeded bytes.length), st)) := by
  constructor
  · intro hlen
    simp [QuicStream.send, h, QuicStream.sendBytes, hlen]
  · intro hlen
    have hnle : ¬ bytes.length ≤ 65535 := by omega
    simp [QuicStream.send, h, QuicStream.sendBytes, hnle]

/-- C3 (witness): a 3-octet body is framed as `[0x0, 0x3]` plus the body. -/
theorem quic_send_spec_witness :
    QuicStream.send (fun (_ : Message Nat) => Except.ok [1, 2, 3]) [] ⟨42, 0⟩ =
      (Except.ok (), [] ++ u16be 3 ++ [1, 2, 3]) :=
  (quic_send_spec (fun _ => Except.ok [1, 2, 3]) [] ⟨42, 0⟩ [1, 2, 3] rfl).1
    (by decide)

/-- A correctly framed input (2-octet big-endian length of the body, then
the body) is consumed by `receive_bytes` without a reset. -/
theorem receiveBytes_framed (bytes : List Nat) (h : bytes.length ≤ 65535) :
    QuicStream.receiveBytes (u16be bytes.length ++ bytes) = (.ok bytes, none) := by
  have hdec : bytes.length / 256 % 256 * 256 + bytes.length % 256 = bytes.length := by
    omega
  simp [QuicStream.receiveBytes, u16be, readExact, u16fromBe, hdec]

/-- C4: for every inbound framed message whose octets parse successfully
to a message with non-zero ID, `receive` resets the send stream with
`ProtocolError` (wire code `0x2`) and returns `QuicMessageIdNot0 id`; a
message with ID 0 is handed to `DnsResponse::from_buffer` and returned
without a reset. -/
theorem quic_receive_nonzero_id_spec {α β : Type}
    (fromVec : List Nat → Except ProtoError (Message α))
    (fromBuffer : List Nat → Except ProtoError β)
    (bytes : List Nat) (msg : Message α)
    (hlen : bytes.length ≤ 65535)
    (hparse : fromVec bytes = .ok msg) :
    (msg.id ≠ 0 →
      QuicStream.receive fromVec fromBuffer (u16be bytes.length ++ bytes) =
        (.error (.quicMessageIdNot0 msg.id), some .ProtocolError)) ∧
    (msg.id = 0 →
      QuicStream.receive fromVec fromBuffer (u16be bytes.length ++ bytes) =
        (fromBuffer bytes, none)) ∧
    DoqErrorCode.ProtocolError.toVarInt = 0x2 := by
  have hrb := receiveBytes_framed bytes hlen
  refine ⟨?_, ?_, by decide⟩ <;> intro hid <;>
    simp [QuicStream.receive, hrb, hparse, hid]

/-- C4 (witness): a framed body parsing to ID 7 yields
`QuicMessageIdNot0 7` and a `ProtocolError` reset. -/
theorem quic_receive_nonzero_id_witness :
    QuicStream.receive (fun (_ : List Nat) => Except.ok (⟨7, 0⟩ : Message Nat))
        (fun (_ : List Nat) => Except.ok (0 : Nat)) (u16be 1 ++ [9]) =
      (.error (.quicMessageIdNot0 7), some .ProtocolError) :=
  (quic_receive_nonzero_id_spec (fun _ => Except.ok (⟨7, 0⟩ : Message Nat))
    (fun _ => Except.ok (0 : Nat)) [9] ⟨7, 0⟩ (by decide) rfl).1 (by decide)

/-- The reset inside `receive_bytes` happens only when the 2-octet length
was read but the announced body could not be read in full: the code is
`ProtocolError`, the propagated result is the read error, and the
remaining input is shorter than the announced length. -/
theorem receiveBytes_reset_characterization (input : List Nat)
    (r : Except ProtoError (List Nat)) (code : DoqErrorCode)
    (h : QuicStream.receiveBytes input = (r, some code)) :
    code = .ProtocolError ∧ r = .error .readError ∧
    2 ≤ input.length ∧ input.length - 2 < frameLen input := by
  unfold QuicStream.receiveBytes at h
  by_cases h2 : 2 ≤ input.length
  · rw [show readExact input 2 = .ok (input.take 2, input.drop 2) from by
      simp [readExact, h2]] at h
    dsimp only at h
    by_cases h3 : frameLen input ≤ (input.drop 2).length
    · rw [show readExact (input.drop 2)
            (u16fromBe ((input.take 2).headI) ((input.take 2).tail.headI)) =
          .ok ((input.drop 2).take (frameLen input),
            (input.drop 2).drop (frameLen input)) from by
        simp only [frameLen] at h3 ⊢
        unfold readExact
        rw [if_pos h3]] at h
      dsimp only at h
      simp at h
    · rw [show readExact (input.drop 2)
            (u16fromBe ((input.take 2).headI) ((input.take 2).tail.headI)) =
          .error .readError from by
        simp only [frameLen] at h3
        unfold readExact
        rw [if_neg h3]] at h
      dsimp only at h
      rw [Prod.mk.injEq] at h
      obtain ⟨hr, hc⟩ := h
      simp only [Option.some.injEq] at hc
      refine ⟨hc.symm, hr.symm, h2, ?_⟩
      simp only [List.length_drop] at h3
      omega
  · rw [show readExact input 2 = .error .readError from by
      simp [readExact, h2]] at h
    dsimp only at h
    rw [Prod.mk.injEq] at h
    exact absurd h.2 (by simp)

/-- C10: when `receive` reads a correctly framed length and body but the
body fails to parse as a DNS message, the parse error is propagated to
the caller without resetting the stream; and whenever `receive` does
reset, the code is `ProtocolError` and the cause is either a failed body
read (the reset performed inside `receive_bytes`) or a successfully
parsed message with non-zero ID. -/
theorem quic_receive_parse_error_no_reset {α β : Type}
    (fromVec : List Nat → Except ProtoError (Message α))
    (fromBuffer : List Nat → Except ProtoError β) :
    (∀ (bytes : List Nat) (e : ProtoError), bytes.length ≤ 65535 →
      fromVec bytes = .error e →
      QuicStream.receive fromVec fromBuffer (u16be bytes.length ++ bytes) =
        (.error e, none)) ∧
    (∀ (input : List Nat) (res : Except ProtoError β) (code : DoqErrorCode),
      QuicStream.receive fromVec fromBuffer input = (res, some code) →
      code = .ProtocolError ∧
      (((QuicStream.receiveBytes input).1 = .error .readError ∧
          (QuicStream.receiveBytes input).2 = some .ProtocolError ∧
          input.length - 2 < frameLen input) ∨
        (∃ bytes msg, (QuicStream.receiveBytes input).1 = .ok bytes ∧
          fromVec bytes = .ok msg ∧ msg.id ≠ 0 ∧
          res = .error (.quicMessageIdNot0 msg.id)))) := by
  constructor
  · intro bytes e hlen hparse
    have hrb := receiveBytes_framed bytes hlen
    simp [QuicStream.receive, hrb, hparse]
  · intro input res code h
    unfold QuicStream.receive at h
    rcases hrb : QuicStream.receiveBytes input with ⟨r, rc⟩
    rw [hrb] at h
    match r, h with
    | .error e, h =>
      dsimp only at h
      rw [Prod.mk.injEq] at h
      obtain ⟨hres, hrc⟩ := h
      have hchar := receiveBytes_reset_characterization input (.error e) code
        (by rw [hrb, hrc])
      exact ⟨hchar.1, .inl ⟨hchar.2.1, by simp [hrc, hchar.1], hchar.2.2.2⟩⟩
    | .ok bytes, h =>
      dsimp only at h
      match hp : fromVec bytes, h with
      | .error e, h =>
        dsimp only at h
        rw [Prod.mk.injEq] at h
        exact absurd h.2 (by simp)
      | .ok msg, h =>
        dsimp only at h
        by_cases hid : msg.id = 0
        · rw [if_neg (by simp [hid])] at h
          rw [Prod.mk.injEq] at h
          exact absurd h.2 (by simp)
        · rw [if_pos hid] at h
          rw [Prod.mk.injEq] at h
          obtain ⟨hres, hcode⟩ := h
          simp only [Option.some.injEq] at hcode
          exact ⟨hcode.symm, .inr ⟨bytes, msg, rfl, hp, hid, hres.symm⟩⟩

/-- C10 (witness): a framed 1-octet body whose parse fails propagates the
parse error with no reset. -/
theorem quic_receive_parse_error_witness :
    QuicStream.receive (fun (_ : List Nat) =>
        (Except.error (.message ("bad")) : Except ProtoError (Message Nat)))
      (fun (_ : List Nat) => Except.ok (0 : Nat)) (u16be 1 ++ [9]) =
      (.error (.message ("bad")), none) :=
  (quic_receive_parse_error_no_reset (fun _ => Except.error (.message ("bad")))
    (fun _ => Except.ok (0 : Nat))).1 [9] (.message ("bad")) (by decide) rfl

/-- One loop iteration when the current query does not warrant a retry:
the result is returned as is, with no further attempt. -/
theorem pollLoopRev_done (f : Name → Except ResolveError Lookup)
    (fb : Option RData) (revNames : List Name)
    (q : Except ResolveError Lookup) (h : shouldRetry q = false) :
    pollLoopRev f fb revNames q = (q, 0) := by
  cases revNames <;> simp [pollLoopRev, h]

/-- One loop iteration when the current query warrants a retry and a
candidate remains: the head of the reversed list is looked up next. -/
theorem pollLoopRev_cons (f : Name → Except ResolveError Lookup)
    (fb : Option RData) (n : Name) (rest : List Name)
    (q : Except ResolveError Lookup) (h : shouldRetry q = true) :
    pollLoopRev f fb (n :: rest) q =
      ((pollLoopRev f fb rest (f n)).1, (pollLoopRev f fb rest (f n)).2 + 1) := by
  simp [pollLoopRev, h]

/-- One loop iteration when the current query warrants a retry and no
candidate remains: fall back to the synthetic lookup when an IP was
provided, else return the current result. -/
theorem pollLoopRev_nil (f : Name → Except ResolveError Lookup)
    (fb : Option RData) (q : Except ResolveError Lookup)
    (h : shouldRetry q = true) :
    pollLoopRev f fb [] q =
      (match fb with
        | some ipAddr => (.ok (fallbackLookup ipAddr), 0)
        | none => (q, 0)) := by
  simp [pollLoopRev, h]

/-- C5 (counterexample): the claim says a lookup constructed with an
empty names list resolves to the `"can not lookup IPs for no names"`
error, but when a `fallback_ip` is supplied the engine returns the
synthetic fallback lookup instead. -/
theorem lookup_empty_names_cex :
    (lookupIpRun (fun _ => .error (.proto 0)) [] (some (RData.A 1))).1 =
      .ok (fallbackLookup (RData.A 1)) ∧
    (lookupIpRun (fun _ => .error (.proto 0)) [] (some (RData.A 1))).1 ≠
      .error noNamesError :=
  ⟨rfl, fun h => Except.noConfusion h⟩

/-- C5 (amended): a lookup constructed with an empty names list resolves
to the error `ResolveError::Message("can not lookup IPs for no names")`
when no `fallback_ip` was provided (with zero strategic lookups started);
with a `fallback_ip` it resolves to the synthetic fallback lookup
instead. -/
theorem lookup_empty_names_amended (f : Name → Except ResolveError Lookup) :
    lookupIpRun f [] none = (.error noNamesError, 0) ∧
    noNamesError = .message ("can not lookup IPs for no names") ∧
    (∀ ipAddr, lookupIpRun f [] (some ipAddr) =
      (.ok (fallbackLookup ipAddr), 0)) :=
  ⟨rfl, rfl, fun _ => rfl⟩

/-- C6: at every step of the main loop — a completed successful
non-empty lookup is returned immediately with no further attempt; a
completed lookup that warrants a retry pops the LAST element of the
names list and starts the strategic lookup for that name with the rest
of the list (LIFO order); and the retry predicate treats an empty
non-error lookup exactly like an error. -/
theorem lookup_retry_step_spec (f : Name → Except ResolveError Lookup)
    (names rest : List Name) (n : Name) (fb : Option RData)
    (q : Except ResolveError Lookup) (l : Lookup) (e : ResolveError) :
    (q = .ok l → l.isEmpty = false → pollFrom f names fb q = (q, 0)) ∧
    (shouldRetry q = true → names = rest ++ [n] →
      pollFrom f names fb q =
        ((pollFrom f rest fb (f n)).1, (pollFrom f rest fb (f n)).2 + 1)) ∧
    shouldRetry (.ok l) = l.isEmpty ∧
    shouldRetry (.error e) = true := by
  refine ⟨?_, ?_, rfl, rfl⟩
  · intro hq he
    have : shouldRetry q = false := by simp [hq, shouldRetry, he]
    exact pollLoopRev_done f fb names.reverse q this
  · intro hr hn
    subst hn
    unfold pollFrom
    rw [List.reverse_append, List.reverse_singleton, List.singleton_append,
      pollLoopRev_cons f fb n rest.reverse q hr]

/-- C6 (witness): a non-empty successful lookup is returned immediately,
and with `names = [a, b]` the retry pops `b` first. -/
theorem lookup_retry_step_witness :
    (pollFrom (fun _ => .error (.proto 1)) [["a"], ["b"]] none
        (.ok (fallbackLookup (RData.A 3))) =
      (.ok (fallbackLookup (RData.A 3)), 0)) ∧
    (pollFrom (fun _ => .error (.proto 1)) [["a"], ["b"]] none
        (.error (.proto 9)) =
      ((pollFrom (fun _ => .error (.proto 1)) [["a"]] none
          ((fun (_ : Name) => (.error (.proto 1) : Except ResolveError Lookup)) ["b"])).1,
        (pollFrom (fun _ => .error (.proto 1)) [["a"]] none
          ((fun (_ : Name) => (.error (.proto 1) : Except ResolveError Lookup)) ["b"])).2 + 1)) :=
  ⟨(lookup_retry_step_spec (fun _ => .error (.proto 1)) [["a"], ["b"]] [["a"]]
      ["b"] none (.ok (fallbackLookup (RData.A 3))) (fallbackLookup (RData.A 3))
      (.proto 1)).1 rfl rfl,
    (lookup_retry_step_spec (fun _ => .error (.proto 1)) [["a"], ["b"]] [["a"]]
      ["b"] none (.error (.proto 9)) (fallbackLookup (RData.A 3))
      (.proto 1)).2.1 rfl rfl⟩

/-- When every remaining strategic lookup errors and no fallback IP is
available, the loop consumes every candidate and ends in an error, having
started exactly one lookup per candidate. -/
theorem pollLoopRev_all_error_none (f : Name → Except ResolveError Lookup)
    (revNames : List Name) (e0 : ResolveError)
    (hf : ∀ n ∈ revNames, ∃ e, f n = .error e) :
    ∃ e, pollLoopRev f none revNames (.error e0) =
      (.error e, revNames.length) := by
  induction revNames generalizing e0 with
  | nil => exact ⟨e0, rfl⟩
  | cons n rest ih =>
    obtain ⟨e, he⟩ := hf n (List.mem_cons_self n rest)
    obtain ⟨e', he'⟩ := ih e (fun m hm => hf m (List.mem_cons_of_mem n hm))
    refine ⟨e', ?_⟩
    rw [pollLoopRev_cons f none n rest (.error e0) rfl, he, he']
    rfl

/-- When every remaining strategic lookup errors and a fallback IP is
available, the loop consumes every candidate and returns the synthetic
fallback lookup, having started exactly one lookup per candidate. -/
theorem pollLoopRev_all_error_some (f : Name → Except ResolveError Lookup)
    (revNames : List Name) (ipAddr : RData) (e0 : ResolveError)
    (hf : ∀ n ∈ revNames, ∃ e, f n = .error e) :
    pollLoopRev f (some ipAddr) revNames (.error e0) =
      (.ok (fallbackLookup ipAddr), revNames.length) := by
  induction revNames generalizing e0 with
  | nil => rfl
  | cons n rest ih =>
    obtain ⟨e, he⟩ := hf n (List.mem_cons_self n rest)
    rw [pollLoopRev_cons f (some ipAddr) n rest (.error e0) rfl, he,
      ih e (fun m hm => hf m (List.mem_cons_of_mem n hm))]
    rfl

/-- C7: with a non-empty names list and a client for which every
strategic lookup errors — with `fallback_ip = None` the future resolves
to an error after exactly `|names|` attempts; with
`fallback_ip = Some ip` it resolves, after the same `|names|` failed
attempts, to a lookup holding exactly one record whose name is the empty
`Name`, whose TTL is `MAX_TTL` and whose rdata is `ip`. -/
theorem lookup_all_error_spec (f : Name → Except ResolveError Lookup)
    (names : List Name) (ipAddr : RData)
    (_hne : names ≠ [])
    (hf : ∀ n, ∃ e, f n = .error e) :
    (∃ e, lookupIpRun f names none = (.error e, names.length)) ∧
    lookupIpRun f names (some ipAddr) =
      (.ok (fallbackLookup ipAddr), names.length) ∧
    fallbackLookup ipAddr =
      { query := Query.new,
        records := [{ name := Name.new, ttl := MAX_TTL, rdata := ipAddr }] } := by
  refine ⟨?_, ?_, rfl⟩
  · obtain ⟨e, he⟩ := pollLoopRev_all_error_none f names.reverse noNamesError
      (fun n _ => hf n)
    exact ⟨e, by rw [lookupIpRun, pollFrom, he, List.length_reverse]⟩
  · rw [lookupIpRun, pollFrom,
      pollLoopRev_all_error_some f names.reverse ipAddr noNamesError
        (fun n _ => hf n), List.length_reverse]

/-- C7 (witness): two candidate names, every lookup failing. -/
theorem lookup_all_error_witness :
    (∃ e, lookupIpRun (fun _ => .error (.proto 7)) [["x"], ["y"]] none =
      (.error e, 2)) ∧
    lookupIpRun (fun _ => .error (.proto 7)) [["x"], ["y"]]
        (some (RData.AAAA 1)) =
      (.ok (fallbackLookup (RData.AAAA 1)), 2) ∧
    fallbackLookup (RData.AAAA 1) =
      { query := Query.new,
        records :=
          [{ name := Name.new, ttl := MAX_TTL, rdata := RData.AAAA 1 }] } :=
  lookup_all_error_spec (fun _ => .error (.proto 7)) [["x"], ["y"]]
    (RData.AAAA 1) (by simp) (fun _ => ⟨.proto 7, rfl⟩)

/-- C8 (counterexample): the claim says two non-empty successes merge as
A records then AAAA records, but the code appends the side that
completed FIRST before the other; when the AAAA side wins the race
(`Either::Right`), the merged records are the AAAA records followed by
the A records. -/
theorem ipv4_and_ipv6_order_cex :
    ipv4AndIpv6 (.ok sampleLookupA) (.ok sampleLookupAAAA) false =
      .ok (sampleLookupAAAA.append sampleLookupA) ∧
    (sampleLookupAAAA.append sampleLookupA).records ≠
      sampleLookupA.records ++ sampleLookupAAAA.records := by
  exact ⟨rfl, by decide⟩

/-- C8 (amended): for one candidate name under `Ipv4AndIpv6`, with `w`
recording which side completed first — if both sub-lookups succeed, the
merged result appends the first-completed side's records before the
other side's, and its IP multiset is the union of the two sides' IPs
with multiplicity preserved; if exactly one side succeeds and the other
errors, the success is returned; if both error, the first-completed
side's error is returned. -/
theorem ipv4_and_ipv6_amended (resA resAAAA : Except ResolveError Lookup)
    (w : Bool) (lA lAAAA : Lookup) (e eA eAAAA : ResolveError) :
    (resA = .ok lA → resAAAA = .ok lAAAA →
      ipv4AndIpv6 resA resAAAA w =
        .ok (if w then lA.append lAAAA else lAAAA.append lA) ∧
      (if w then lA.append lAAAA else lAAAA.append lA).ips.Perm
        (lA.ips ++ lAAAA.ips)) ∧
    (resA = .ok lA → resAAAA = .error e →
      ipv4AndIpv6 resA resAAAA w = .ok lA) ∧
    (resA = .error e → resAAAA = .ok lAAAA →
      ipv4AndIpv6 resA resAAAA w = .ok lAAAA) ∧
    (resA = .error eA → resAAAA = .error eAAAA →
      ipv4AndIpv6 resA resAAAA w = .error (if w then eA else eAAAA)) := by
  refine ⟨?_, ?_, ?_, ?_⟩ <;> intro h1 h2 <;> subst h1 <;> subst h2 <;>
    cases w <;>
    simp [ipv4AndIpv6, Lookup.append, Lookup.ips, List.filterMap_append]
  all_goals exact List.perm_append_comm

/-- C8 (witness): both sides succeed with the A side completing first. -/
theorem ipv4_and_ipv6_amended_witness :
    (ipv4AndIpv6 (.ok sampleLookupA) (.ok sampleLookupAAAA) true =
      .ok (if true then sampleLookupA.append sampleLookupAAAA
        else sampleLookupAAAA.append sampleLookupA)) ∧
    (if true then sampleLookupA.append sampleLookupAAAA
      else sampleLookupAAAA.append sampleLookupA).ips.Perm
        (sampleLookupA.ips ++ sampleLookupAAAA.ips) :=
  (ipv4_and_ipv6_amended (.ok sampleLookupA) (.ok sampleLookupAAAA) true
    sampleLookupA sampleLookupAAAA (.proto 0) (.proto 0) (.proto 0)).1 rfl rfl

/-- C9: after `shutdown()` on a `QuicClientStream`, `is_shutdown()`
reports `true`; every subsequent `send_message` call panics (it yields no
return value at all); `shutdown()` on a not-yet-closed connection closed
it with the DoQ `NO_ERROR` code (varint `0x0`) and the close payload
octets of `"Shutdown"`; and the `Shutdown` state is terminal — no
operation resets the flag to `false`. -/
theorem quic_client_shutdown_spec (s s' : QuicClientStream) :
    (s.shutdown).isShutdownFn = true ∧
    (s'.isShutdown = true → s'.sendMessage = none) ∧
    (s.closeState = none →
      (s.shutdown).closeState =
        some (DoqErrorCode.NoError.toVarInt, shutdownPayload)) ∧
    DoqErrorCode.NoError.toVarInt = 0x0 ∧
    (∀ op, s'.isShutdown = true → (s'.applyOp op).isShutdown = true) := by
  refine ⟨rfl, ?_, ?_, rfl, ?_⟩
  · intro h
    simp [QuicClientStream.sendMessage, h]
  · intro h
    simp [QuicClientStream.shutdown, h]
  · intro op h
    cases op <;>
      simp [QuicClientStream.applyOp, QuicClientStream.shutdown,
        QuicClientStream.sendMessage, h]

/-- C9 (witness): a freshly built handle (`is_shutdown = false`, no close
recorded), and a shut-down handle kept terminal by both operations. -/
theorem quic_client_shutdown_witness :
    ((⟨false, none⟩ : QuicClientStream).shutdown).isShutdownFn = true ∧
    (⟨true, some (0, shutdownPayload)⟩ : QuicClientStream).sendMessage = none ∧
    ((⟨false, none⟩ : QuicClientStream).shutdown).closeState =
      some (DoqErrorCode.NoError.toVarInt, shutdownPayload) ∧
    ((⟨true, some (0, shutdownPayload)⟩ : QuicClientStream).applyOp
      .opSendMessage).isShutdown = true :=
  have h := quic_client_shutdown_spec ⟨false, none⟩
    ⟨true, some (0, shutdownPayload)⟩
  ⟨h.1, h.2.1 rfl, h.2.2.1 rfl, h.2.2.2.2 .opSendMessage rfl⟩

end HickoryDns
